import Mathlib

/-!
Verification of the helpdesk ticket workflow backend.

The TypeScript controllers (`ticketController.ts`, `escalationController.ts`),
the Mongoose `Ticket` schema with its pre-save hook, and the role-based list
filter of `getTickets` are embedded as pure Lean functions.  Roles, levels,
statuses and criticality values are kept as `String`, exactly as in the
JavaScript runtime; optional request fields are `Option String` (`none` is a
missing / falsy field).  `Date` fields (`performedAt`, `escalatedAt`,
`createdAt`, `expectedCompletionDate`) carry no information used by any
property below and are omitted.  Each controller returns `Except Failure
Ticket`: a failure response (HTTP status plus message) or the saved ticket.
All validation in each controller happens before any field write, so a
failure result models an unchanged stored ticket.
-/

namespace Helpdesk

/-- An authenticated actor: `req.user` after `authenticateToken`. -/
structure User where
  id : String
  role : String
deriving DecidableEq, Repr

/-- One entry of `ticket.escalationHistory` (escalation subdocument). -/
structure EscalationRecord where
  fromLevel : String
  toLevel : String
  reason : String
  escalatedBy : String
  notes : Option String
deriving DecidableEq, Repr

/-- One entry of `ticket.actionLogs` (action-log subdocument). -/
structure ActionLog where
  action : String
  performedBy : String
  details : Option String
  previousStatus : Option String
  newStatus : Option String
deriving DecidableEq, Repr

/-- The `Ticket` document fields the workflow logic reads or writes. -/
structure Ticket where
  title : String
  priority : String
  status : String
  criticalValue : Option String
  createdBy : String
  currentLevel : String
  escalationHistory : List EscalationRecord
  actionLogs : List ActionLog
deriving DecidableEq, Repr

/-- A failure response: HTTP status code and `message` of the JSON body. -/
structure Failure where
  httpStatus : Nat
  message : String
deriving DecidableEq, Repr

/-- `['C1', 'C2'].includes(ticket.criticalValue || '')` from the controllers:
a missing value becomes `''`, which is not in the list. -/
abbrev critIsC1orC2 (cv : Option String) : Prop :=
  cv = some "C1" ∨ cv = some "C2"

/-- The condition rejected by `ticketSchema.pre('save')`: a ticket at L3
with critical value C3 cannot be saved. -/
abbrev saveViolation (t : Ticket) : Prop :=
  t.currentLevel = "L3" ∧ t.criticalValue = some "C3"

/-- `ticket.save()`: the pre-save hook passes the error `'C3 tickets cannot
be escalated to L3...'` to `next`, which each controller's `catch` turns
into a 500 response with that controller's generic message. -/
def saveTicket (errMsg : String) (t : Ticket) : Except Failure Ticket :=
  if saveViolation t then .error ⟨500, errMsg⟩ else .ok t

/-- `resolveTicket` of `escalationController.ts`. -/
def resolveTicket (user : Option User) (ticket : Option Ticket)
    (resolution : String) : Except Failure Ticket :=
  match user with
  | none => .error ⟨401, "Authentication required"⟩
  | some u =>
    if ¬ (u.role = "L1" ∨ u.role = "L2" ∨ u.role = "L3") then
      .error ⟨403, "Only L1, L2, and L3 agents can resolve tickets"⟩
    else
      match ticket with
      | none => .error ⟨404, "Ticket not found"⟩
      | some t =>
        if (u.role = "L1" ∧ t.currentLevel = "L1") ∨
           (u.role = "L2" ∧ t.currentLevel = "L2") ∨
           (u.role = "L3" ∧ t.currentLevel = "L3" ∧
             critIsC1orC2 t.criticalValue) then
          let previousStatus := t.status
          let t1 : Ticket :=
            { t with
              status := "Resolved"
              actionLogs := t.actionLogs ++
                [⟨"Ticket resolved", u.id,
                  some ("Resolution: " ++ resolution),
                  some previousStatus, some "Resolved"⟩] }
          saveTicket "Failed to resolve ticket" t1
        else
          .error ⟨403, u.role ++ " agents can only resolve tickets at " ++
            u.role ++ " level"⟩

/-- `createTicket` of `ticketController.ts`.  Only L1 creates; the new
document gets `currentLevel: 'L1'`, the schema default `status: 'New'`, no
critical value, and the single initial action log. -/
def createTicket (user : Option User) (title priority : String) :
    Except Failure Ticket :=
  match user with
  | none => .error ⟨401, "Authentication required"⟩
  | some u =>
    if ¬ u.role = "L1" then
      .error ⟨403, "Only L1 agents can create tickets"⟩
    else
      let t : Ticket :=
        ⟨title, priority, "New", none, u.id, "L1", [],
          [⟨"Ticket created", u.id,
            some ("Ticket created with priority " ++ priority), none, none⟩]⟩
      saveTicket "Failed to create ticket" t

/-- `updateTicketStatus` of `ticketController.ts`.  `status` and
`criticalValue` are the optional request-body fields. -/
def updateTicketStatus (user : Option User) (ticket : Option Ticket)
    (status criticalValue : Option String) : Except Failure Ticket :=
  match user with
  | none => .error ⟨401, "Authentication required"⟩
  | some u =>
    match ticket with
    | none => .error ⟨404, "Ticket not found"⟩
    | some t =>
      if u.role = "L1" ∧ ¬ t.currentLevel = "L1" then
        .error ⟨403, "L1 agents can only update tickets at L1 level"⟩
      else if u.role = "L2" ∧
          ¬ (t.currentLevel = "L1" ∨ t.currentLevel = "L2") then
        .error ⟨403, "L2 agents can only update tickets at L1 or L2 level"⟩
      else if u.role = "L3" ∧ t.currentLevel = "L3" ∧
          ¬ critIsC1orC2 t.criticalValue then
        .error ⟨403,
          "L3 agents can only update critical (C1, C2) tickets at L3 level"⟩
      else
        let previousStatus := t.status
        let newStatus := status.getD previousStatus
        let t1 : Ticket :=
          { t with
            status := newStatus
            criticalValue :=
              match criticalValue with
              | some cv => if u.role = "L2" then some cv else t.criticalValue
              | none => t.criticalValue
            actionLogs := t.actionLogs ++
              [⟨"Status updated from " ++ previousStatus ++ " to " ++
                  newStatus,
                u.id,
                criticalValue.map (fun cv => "Critical value set to " ++ cv),
                some previousStatus, some newStatus⟩] }
        saveTicket "Failed to update ticket" t1

/-- `updateCriticalValue` of `ticketController.ts` (assign criticality). -/
def updateCriticalValue (user : Option User) (ticket : Option Ticket)
    (criticalValue : String) : Except Failure Ticket :=
  match user with
  | none => .error ⟨401, "Authentication required"⟩
  | some u =>
    if ¬ u.role = "L2" then
      .error ⟨403, "Only L2 agents can update critical value"⟩
    else if ¬ (criticalValue = "C1" ∨ criticalValue = "C2" ∨
        criticalValue = "C3") then
      .error ⟨400, "Invalid critical value"⟩
    else
      match ticket with
      | none => .error ⟨404, "Ticket not found"⟩
      | some t =>
        if ¬ t.currentLevel = "L2" then
          .error ⟨403, "Can only update critical value for tickets at L2 level"⟩
        else
          let previousCriticalValue := t.criticalValue
          let t1 : Ticket :=
            { t with
              criticalValue := some criticalValue
              actionLogs := t.actionLogs ++
                [⟨"Critical value updated", u.id,
                  some ("Critical value changed from " ++
                    previousCriticalValue.getD "none" ++ " to " ++
                    criticalValue),
                  none, none⟩] }
          saveTicket "Failed to update critical value" t1

/-- `escalateTicket` of `escalationController.ts`.  Note the source order:
`ticket.status = 'Escalated'` is assigned before the action log is pushed,
so the pushed `previousStatus: ticket.status` reads the already-updated
status. -/
def escalateTicket (user : Option User) (ticket : Option Ticket)
    (toLevel reason : String) (notes : Option String) :
    Except Failure Ticket :=
  match user with
  | none => .error ⟨401, "Authentication required"⟩
  | some u =>
    match ticket with
    | none => .error ⟨404, "Ticket not found"⟩
    | some t =>
      if u.role = "L1" ∧ ¬ toLevel = "L2" then
        .error ⟨400, "L1 agents can only escalate to L2"⟩
      else if u.role = "L2" ∧ ¬ toLevel = "L3" then
        .error ⟨400, "L2 agents can only escalate to L3"⟩
      else if u.role = "L3" then
        .error ⟨400, "L3 is the highest level, cannot escalate further"⟩
      else if ¬ t.currentLevel = u.role then
        .error ⟨403, "Can only escalate tickets at your current level (" ++
          u.role ++ ")"⟩
      else if u.role = "L2" ∧ toLevel = "L3" ∧ t.criticalValue = none then
        .error ⟨400, "Cannot escalate to L3 without critical value assignment"⟩
      else if u.role = "L2" ∧ toLevel = "L3" ∧
          t.criticalValue = some "C3" then
        .error ⟨400, "C3 tickets cannot be escalated to L3"⟩
      else
        let previousLevel := t.currentLevel
        let t1 : Ticket := { t with currentLevel := toLevel,
                                    status := "Escalated" }
        let t2 : Ticket :=
          { t1 with
            escalationHistory := t1.escalationHistory ++
              [⟨previousLevel, toLevel, reason, u.id, notes⟩]
            actionLogs := t1.actionLogs ++
              [⟨"Ticket escalated from " ++ previousLevel ++ " to " ++
                  toLevel,
                u.id,
                some ("Reason: " ++ reason ++
                  (match notes with
                   | some n => " | Notes: " ++ n
                   | none => "")),
                some t1.status, some "Escalated"⟩] }
        saveTicket "Failed to escalate ticket" t2

/-- `addActionLog` of `escalationController.ts`. -/
def addActionLog (user : Option User) (ticket : Option Ticket)
    (action : String) (details : Option String) : Except Failure Ticket :=
  match user with
  | none => .error ⟨401, "Authentication required"⟩
  | some u =>
    match ticket with
    | none => .error ⟨404, "Ticket not found"⟩
    | some t =>
      if (u.role = "L1" ∧ t.currentLevel = "L1") ∨
         (u.role = "L2" ∧ (t.currentLevel = "L1" ∨ t.currentLevel = "L2")) ∨
         (u.role = "L3" ∧ t.currentLevel = "L3" ∧
           critIsC1orC2 t.criticalValue) then
        let t1 : Ticket :=
          { t with
            actionLogs := t.actionLogs ++ [⟨action, u.id, details,
              none, none⟩] }
        saveTicket "Failed to add action log" t1
      else
        .error ⟨403,
          "You do not have permission to add action logs to this ticket"⟩

/-- The Mongo query object built by `getTickets`: present keys constrain
the matching documents.  `currentLevel` is either a single value or an
`$in` list, so it is modelled as the list of admitted levels; `l3And`
models the `$and` clause added for role L3. -/
structure MongoFilter where
  createdBy : Option String
  currentLevel : Option (List String)
  l3And : Bool
  status : Option String
  priority : Option String
deriving DecidableEq, Repr

/-- Filter construction of `getTickets`: role-based keys first, then query
parameters; a `level` parameter overwrites the `currentLevel` key. -/
def buildFilter (u : User) (status priority level : Option String) :
    MongoFilter :=
  let f0 : MongoFilter := ⟨none, none, false, none, none⟩
  let f1 : MongoFilter :=
    if u.role = "L1" then { f0 with createdBy := some u.id }
    else if u.role = "L2" then { f0 with currentLevel := some ["L2", "L3"] }
    else if u.role = "L3" then { f0 with l3And := true }
    else f0
  let f2 : MongoFilter :=
    match status with
    | some s => { f1 with status := some s }
    | none => f1
  let f3 : MongoFilter :=
    match priority with
    | some p => { f2 with priority := some p }
    | none => f2
  match level with
  | some l => { f3 with currentLevel := some [l] }
  | none => f3

/-- A ticket document matches the query object. -/
def matchesFilter (f : MongoFilter) (t : Ticket) : Prop :=
  (∀ uid, f.createdBy = some uid → t.createdBy = uid) ∧
  (∀ ls, f.currentLevel = some ls → t.currentLevel ∈ ls) ∧
  (f.l3And = true → t.currentLevel = "L3" ∧ critIsC1orC2 t.criticalValue) ∧
  (∀ s, f.status = some s → t.status = s) ∧
  (∀ p, f.priority = some p → t.priority = p)

instance (f : MongoFilter) (t : Ticket) : Decidable (matchesFilter f t) := by
  unfold matchesFilter
  exact inferInstance

/-- `getTickets`: the page of tickets returned for the query, out of the
stored tickets `all`.  The `createdAt` sort permutes only tickets already
matching the filter and is omitted; `skip`/`limit` paginate. -/
def getTicketsResult (u : User) (all : List Ticket)
    (status priority level : Option String) (page limit : Nat) :
    List Ticket :=
  let f := buildFilter u status priority level
  ((all.filter (fun t => decide (matchesFilter f t))).drop
    ((page - 1) * limit)).take limit

/-- The operations of the transition engine, with their payloads. -/
inductive Op where
  | opCreate (title priority : String)
  | opUpdateStatus (status criticalValue : Option String)
  | opAssignCrit (criticalValue : String)
  | opEscalate (toLevel reason : String) (notes : Option String)
  | opResolve (resolution : String)
  | opAddLog (action : String) (details : Option String)
deriving DecidableEq, Repr

/-- Dispatch an operation to its controller.  `opCreate` ignores the loaded
ticket, as `createTicket` builds a fresh document. -/
def applyOp (op : Op) (user : Option User) (ticket : Option Ticket) :
    Except Failure Ticket :=
  match op with
  | .opCreate title priority => createTicket user title priority
  | .opUpdateStatus s cv => updateTicketStatus user ticket s cv
  | .opAssignCrit cv => updateCriticalValue user ticket cv
  | .opEscalate toLevel reason notes =>
      escalateTicket user ticket toLevel reason notes
  | .opResolve resolution => resolveTicket user ticket resolution
  | .opAddLog action details => addActionLog user ticket action details

/-- `needle` occurs at the head of `hay`. -/
def listHasPre (needle hay : List Char) : Bool :=
  match needle, hay with
  | [], _ => true
  | _ :: _, [] => false
  | n :: ns, h :: hs => n = h && listHasPre ns hs

/-- `needle` occurs somewhere in `hay`. -/
def listHasSub (needle hay : List Char) : Bool :=
  match hay with
  | [] => needle.isEmpty
  | _ :: hs => listHasPre needle hay || listHasSub needle hs

/-- The string `sub` occurs as a contiguous substring of `s`: "the message
names X" is read as `strContains message X`. -/
def strContains (s sub : String) : Bool :=
  listHasSub sub.toList s.toList

/-- The structural invariant enforced by the pre-save hook: a ticket at L3
never carries critical value C3. -/
def levelInv (t : Ticket) : Prop :=
  t.currentLevel = "L3" → ¬ t.criticalValue = some "C3"

instance (t : Ticket) : Decidable (levelInv t) := by
  unfold levelInv
  exact inferInstance

/-! Concrete actors and stored tickets used to instantiate the theorems. -/

/-- An L1 agent. -/
def uL1 : User := ⟨"u1", "L1"⟩

/-- An L2 agent. -/
def uL2 : User := ⟨"u2", "L2"⟩

/-- An L3 agent. -/
def uL3 : User := ⟨"u3", "L3"⟩

/-- An actor whose role is outside the L1/L2/L3 set. -/
def uAdmin : User := ⟨"u4", "Admin"⟩

/-- A fresh ticket at L1, status New. -/
def tNewL1 : Ticket := ⟨"t", "High", "New", none, "u1", "L1", [], []⟩

/-- A ticket being worked at L2, no criticality yet. -/
def tAttL2 : Ticket := ⟨"t", "High", "Attending", none, "u1", "L2", [], []⟩

/-- A C1 ticket escalated to L3. -/
def tEscL3 : Ticket :=
  ⟨"t", "High", "Escalated", some "C1", "u1", "L3", [], []⟩

/-- Successfully saving returns the saved ticket, which is not in the state
the pre-save hook rejects. -/
theorem saveTicket_ok_eq {msg : String} {t t' : Ticket}
    (h : saveTicket msg t = .ok t') : t' = t ∧ ¬ saveViolation t := by
  unfold saveTicket at h
  split at h
  next => cases h
  next hv => cases h; exact ⟨rfl, hv⟩

/-- The structural invariant is exactly the absence of the state the
pre-save hook rejects. -/
theorem levelInv_iff (t : Ticket) : levelInv t ↔ ¬ saveViolation t := by
  unfold levelInv saveViolation
  tauto

/-- C1: for every ticket and after every operation (create, update status,
assign criticality, escalate, resolve, add action log), if the ticket's
`currentLevel` is L3 then its `criticalValue` is not C3. -/
theorem C1_level3_never_C3 (op : Op) (user : Option User)
    (ticket : Option Ticket) (t' : Ticket)
    (h : applyOp op user ticket = .ok t') : levelInv t' := by
  rw [levelInv_iff]
  cases op <;> simp only [applyOp] at h <;>
    (first
      | unfold createTicket at h
      | unfold updateTicketStatus at h
      | unfold updateCriticalValue at h
      | unfold escalateTicket at h
      | unfold resolveTicket at h
      | unfold addActionLog at h) <;>
    (repeat' split at h) <;>
    first
    | (obtain ⟨rfl, hv⟩ := saveTicket_ok_eq h; exact hv)
    | cases h

/-- The document produced by `createTicket` for `uL1`. -/
def tCreated : Ticket :=
  ⟨"Printer broken", "High", "New", none, "u1", "L1", [],
    [⟨"Ticket created", "u1",
      some "Ticket created with priority High", none, none⟩]⟩

/-- Witness for C1: creating a ticket succeeds and the result satisfies
the invariant. -/
theorem C1_level3_never_C3_witness : levelInv tCreated :=
  C1_level3_never_C3 (Op.opCreate "Printer broken" "High") (some uL1) none
    tCreated rfl

/-- C5: every successful mutating operation appends exactly one action log
and keeps all earlier `actionLogs` and `escalationHistory` entries intact;
Escalate additionally appends exactly one escalation record, every other
operation leaves `escalationHistory` unchanged; Create starts the fresh
document with its single initial log.  The append-only discipline is
expressed by the output lists being the input lists extended by one entry. -/
theorem C5_audit_append (op : Op) (u : User) (t t' : Ticket)
    (h : applyOp op (some u) (some t) = .ok t') :
    match op with
    | .opCreate _ _ =>
        t'.actionLogs.length = 1 ∧ t'.escalationHistory = []
    | .opEscalate _ _ _ =>
        (∃ e, t'.actionLogs = t.actionLogs ++ [e]) ∧
        (∃ r, t'.escalationHistory = t.escalationHistory ++ [r])
    | _ =>
        (∃ e, t'.actionLogs = t.actionLogs ++ [e]) ∧
        t'.escalationHistory = t.escalationHistory := by
  cases op <;>
    simp only [applyOp, createTicket, updateTicketStatus, updateCriticalValue,
      escalateTicket, resolveTicket, addActionLog] at h <;>
    (repeat' split at h) <;>
    first
    | (obtain ⟨rfl, -⟩ := saveTicket_ok_eq h
       first
        | exact ⟨rfl, rfl⟩
        | exact ⟨⟨_, rfl⟩, rfl⟩
        | exact ⟨⟨_, rfl⟩, _, rfl⟩)
    | cases h

/-- The ticket `tNewL1` after `uL1` resolves it. -/
def tResolved : Ticket :=
  ⟨"t", "High", "Resolved", none, "u1", "L1", [],
    [⟨"Ticket resolved", "u1", some "Resolution: done",
      some "New", some "Resolved"⟩]⟩

/-- Witness for C5: resolving `tNewL1` appends one action log and leaves
the escalation history unchanged. -/
theorem C5_audit_append_witness :
    (∃ e, tResolved.actionLogs = tNewL1.actionLogs ++ [e]) ∧
    tResolved.escalationHistory = tNewL1.escalationHistory :=
  C5_audit_append (Op.opResolve "done") uL1 tNewL1 tResolved rfl

/-- C2: for every actor role R and ticket level T in {L1,L2,L3}, Resolve
succeeds iff R = T (and, when T = L3, the criticality is C1 or C2); every
other combination fails with the 403 Forbidden denial, the ticket unchanged
(all checks precede every field write, so a failure returns the stored
ticket untouched). -/
theorem C2_resolve_iff (u : User) (t : Ticket) (resolution : String)
    (hR : u.role = "L1" ∨ u.role = "L2" ∨ u.role = "L3")
    (hT : t.currentLevel = "L1" ∨ t.currentLevel = "L2" ∨
      t.currentLevel = "L3") :
    ((∃ t', resolveTicket (some u) (some t) resolution = .ok t') ↔
      (u.role = t.currentLevel ∧
        (t.currentLevel = "L3" → critIsC1orC2 t.criticalValue))) ∧
    (¬ u.role = t.currentLevel →
      resolveTicket (some u) (some t) resolution =
        .error ⟨403, u.role ++ " agents can only resolve tickets at " ++
          u.role ++ " level"⟩) := by
  rcases hR with h1 | h1 | h1 <;> rcases hT with h2 | h2 | h2 <;>
    simp [resolveTicket, saveTicket, saveViolation, critIsC1orC2, h1, h2]
  rcases t.criticalValue with - | c
  · simp
  · by_cases hc1 : c = "C1"
    · simp [hc1]
    · by_cases hc2 : c = "C2"
      · simp [hc2]
      · simp [hc1, hc2]

/-- Witness for C2: an L1 agent against a ticket parked at L2 — the
success criterion is false and the 403 denial is returned. -/
theorem C2_resolve_iff_witness :
    ((∃ t', resolveTicket (some uL1) (some tAttL2) "done" = .ok t') ↔
      (uL1.role = tAttL2.currentLevel ∧
        (tAttL2.currentLevel = "L3" → critIsC1orC2 tAttL2.criticalValue))) ∧
    (¬ uL1.role = tAttL2.currentLevel →
      resolveTicket (some uL1) (some tAttL2) "done" =
        .error ⟨403, uL1.role ++ " agents can only resolve tickets at " ++
          uL1.role ++ " level"⟩) :=
  C2_resolve_iff uL1 tAttL2 "done" (Or.inl rfl) (Or.inr (Or.inl rfl))

/-- The ticket `tNewL1` after the L3 agent `uL3` updates its status —
the update is accepted although the ticket sits at L1. -/
def tUpdByL3 : Ticket :=
  ⟨"t", "High", "Attending", none, "u1", "L1", [],
    [⟨"Status updated from New to Attending", "u3", none,
      some "New", some "Attending"⟩]⟩

/-- Counterexample to C3: an L3 agent's UpdateStatus on a ticket at L1
succeeds, although the claim says any ticket not at L3 with C1/C2 is
denied to an L3 actor. -/
theorem C3_counterexample :
    updateTicketStatus (some uL3) (some tNewL1) (some "Attending") none
      = .ok tUpdByL3 ∧
    ¬ (tNewL1.currentLevel = "L3" ∧ critIsC1orC2 tNewL1.criticalValue) := by
  constructor
  · rfl
  · decide

/-- C3 (amended): for an L3 actor, AddActionLog is permitted iff the
ticket is at L3 with criticality C1/C2; UpdateStatus by an L3 actor is
permitted at every level, denied only for a ticket at L3 whose criticality
is not C1/C2 — in particular UpdateStatus on an L1 or L2 ticket succeeds. -/
theorem C3_L3_gate_amended (u : User) (t : Ticket) (s cv : Option String)
    (action : String) (details : Option String)
    (hrole : u.role = "L3")
    (hT : t.currentLevel = "L1" ∨ t.currentLevel = "L2" ∨
      t.currentLevel = "L3") :
    ((∃ t', addActionLog (some u) (some t) action details = .ok t') ↔
      (t.currentLevel = "L3" ∧ critIsC1orC2 t.criticalValue)) ∧
    ((∃ t', updateTicketStatus (some u) (some t) s cv = .ok t') ↔
      ¬ (t.currentLevel = "L3" ∧ ¬ critIsC1orC2 t.criticalValue)) := by
  rcases cv with - | cvv <;> rcases hT with h2 | h2 | h2 <;>
    simp [addActionLog, updateTicketStatus, saveTicket, saveViolation,
      critIsC1orC2, hrole, h2] <;>
  · rcases t.criticalValue with - | c
    · simp
    · by_cases hc1 : c = "C1"
      · simp [hc1]
      · by_cases hc2 : c = "C2"
        · simp [hc2]
        · simp [hc1, hc2]

/-- Witness for the amended C3: the L3 agent against the C1 ticket at L3 —
both operations are permitted. -/
theorem C3_L3_gate_amended_witness :
    ((∃ t', addActionLog (some uL3) (some tEscL3) "note" none = .ok t') ↔
      (tEscL3.currentLevel = "L3" ∧ critIsC1orC2 tEscL3.criticalValue)) ∧
    ((∃ t', updateTicketStatus (some uL3) (some tEscL3) (some "Attending")
        none = .ok t') ↔
      ¬ (tEscL3.currentLevel = "L3" ∧
          ¬ critIsC1orC2 tEscL3.criticalValue)) :=
  C3_L3_gate_amended uL3 tEscL3 (some "Attending") none "note" none rfl
    (Or.inr (Or.inr rfl))

/-- The ticket produced by escalating `tNewL1` (status New) to L2. -/
def tEscalated : Ticket :=
  ⟨"t", "High", "Escalated", none, "u1", "L2",
    [⟨"L1", "L2", "Complex issue", "u1", none⟩],
    [⟨"Ticket escalated from L1 to L2", "u1", some "Reason: Complex issue",
      some "Escalated", some "Escalated"⟩]⟩

/-- C4, evaluated at the failing input: escalating a ticket whose status is
New succeeds and appends exactly one action log, but that log's
`previousStatus` reads Escalated instead of the pre-operation status New,
because the source assigns `ticket.status = 'Escalated'` before pushing the
log built from the already-updated `ticket.status`.  The `newStatus` half
of the claim holds. -/
theorem C4_previousStatus_bug :
    tNewL1.status = "New" ∧
    escalateTicket (some uL1) (some tNewL1) "L2" "Complex issue" none
      = .ok tEscalated ∧
    (tEscalated.actionLogs.map fun e => e.previousStatus)
      = [some "Escalated"] ∧
    (tEscalated.actionLogs.map fun e => e.newStatus)
      = [some "Escalated"] :=
  ⟨rfl, rfl, rfl, rfl⟩

/-- Counterexample to C6: an L2 actor's listing request with query
parameter `level=L1` returns a ticket at L1, because
`if (level) filter.currentLevel = level` overwrites the role-based
`$in: ['L2','L3']` constraint. -/
theorem C6_counterexample :
    ¬ (∀ t ∈ getTicketsResult uL2 [tNewL1] none none (some "L1") 1 10,
        t.currentLevel = "L2" ∨ t.currentLevel = "L3") := by
  decide

/-- C6 (amended): for an L2 actor and any listing request whose `level`
query parameter is absent (any status, priority and pagination
parameters), every listed ticket has `currentLevel` L2 or L3; a supplied
`level` parameter replaces the role-based level constraint instead. -/
theorem C6_L2_scope_amended (u : User) (all : List Ticket)
    (status priority : Option String) (page limit : Nat) (t : Ticket)
    (hrole : u.role = "L2")
    (ht : t ∈ getTicketsResult u all status priority none page limit) :
    t.currentLevel = "L2" ∨ t.currentLevel = "L3" := by
  unfold getTicketsResult at ht
  have h1 := ((List.take_sublist _ _).trans (List.drop_sublist _ _)).subset ht
  have hm := of_decide_eq_true (List.mem_filter.mp h1).2
  have hf : (buildFilter u status priority none).currentLevel
      = some ["L2", "L3"] := by
    rcases status with - | s <;> rcases priority with - | p <;>
      simp [buildFilter, hrole]
  have := hm.2.1 _ hf
  simpa using this

/-- Witness for the amended C6: the stored L2 ticket is listed for the L2
agent and its level is in the allowed set. -/
theorem C6_L2_scope_amended_witness :
    tAttL2.currentLevel = "L2" ∨ tAttL2.currentLevel = "L3" :=
  C6_L2_scope_amended uL2 [tAttL2] none none 1 10 tAttL2 rfl (by decide)

/-- Counterexample to C7: an L1 agent resolving a ticket parked at L2 gets
the 403 message "L1 agents can only resolve tickets at L1 level", which
names the actor's role but nowhere the ticket's level L2. -/
theorem C7_counterexample :
    resolveTicket (some uL1) (some tAttL2) "done" =
      .error ⟨403, "L1 agents can only resolve tickets at L1 level"⟩ ∧
    strContains "L1 agents can only resolve tickets at L1 level"
      tAttL2.currentLevel = false := by
  constructor
  · rfl
  · decide

/-- C7 (amended): every mismatched Resolve attempt (R ≠ T, both in
{L1,L2,L3}) returns a 403 Forbidden whose message names the actor's role R
— it appears both as the agent role and as the level in the sentence — but
does not name the ticket's level T. -/
theorem C7_message_amended (u : User) (t : Ticket) (resolution : String)
    (hR : u.role = "L1" ∨ u.role = "L2" ∨ u.role = "L3")
    (hT : t.currentLevel = "L1" ∨ t.currentLevel = "L2" ∨
      t.currentLevel = "L3")
    (hne : ¬ u.role = t.currentLevel) :
    ∃ m, resolveTicket (some u) (some t) resolution = .error ⟨403, m⟩ ∧
      strContains m u.role = true ∧ strContains m t.currentLevel = false := by
  rcases hR with h1 | h1 | h1 <;> rcases hT with h2 | h2 | h2 <;>
    first
    | exact absurd (h1.trans h2.symm) hne
    | (refine ⟨u.role ++ " agents can only resolve tickets at " ++
          u.role ++ " level", ?_, ?_, ?_⟩
       · simp [resolveTicket, h1, h2]
       · rw [h1]
         decide
       · rw [h1, h2]
         decide)

/-- Witness for the amended C7: the L1-versus-L2 mismatch. -/
theorem C7_message_amended_witness :
    ∃ m, resolveTicket (some uL1) (some tAttL2) "done" = .error ⟨403, m⟩ ∧
      strContains m uL1.role = true ∧
      strContains m tAttL2.currentLevel = false :=
  C7_message_amended uL1 tAttL2 "done" (Or.inl rfl) (Or.inr (Or.inl rfl))
    (by decide)

/-- Saving a ticket the pre-save hook accepts returns it unchanged. -/
theorem saveTicket_eq_ok {msg : String} {t : Ticket}
    (h : ¬ saveViolation t) : saveTicket msg t = .ok t := by
  unfold saveTicket
  rw [if_neg h]

/-- C8: an UpdateStatus call by a non-L2 actor whose payload carries a
`criticalValue` and who passes the three role gates succeeds — the
criticality field causes no denial — and leaves the stored ticket's
`criticalValue` unchanged.  The stored ticket satisfies the save-enforced
invariant, as every persisted document does. -/
theorem C8_criticality_ignored (u : User) (t : Ticket) (s : Option String)
    (cv : String)
    (hrole : ¬ u.role = "L2") (hinv : levelInv t)
    (h1 : ¬ (u.role = "L1" ∧ ¬ t.currentLevel = "L1"))
    (h3 : ¬ (u.role = "L3" ∧ t.currentLevel = "L3" ∧
      ¬ critIsC1orC2 t.criticalValue)) :
    ∃ t', updateTicketStatus (some u) (some t) s (some cv) = .ok t' ∧
      t'.criticalValue = t.criticalValue := by
  have hnv := (levelInv_iff t).mp hinv
  simp only [updateTicketStatus]
  rw [if_neg h1, if_neg (fun hc => hrole hc.1), if_neg h3, if_neg hrole]
  exact ⟨_, saveTicket_eq_ok hnv, rfl⟩

/-- Witness for C8: the L3 agent sends `criticalValue: C2` for the L1
ticket; the call succeeds and the criticality stays unset. -/
theorem C8_criticality_ignored_witness :
    ∃ t', updateTicketStatus (some uL3) (some tNewL1) (some "Attending")
        (some "C2") = .ok t' ∧
      t'.criticalValue = tNewL1.criticalValue :=
  C8_criticality_ignored uL3 tNewL1 (some "Attending") "C2" (by decide)
    (by decide) (by decide) (by decide)

/-- C9: an actor whose role is outside {L1,L2,L3} (such as Admin) is never
stopped by a role gate in UpdateStatus: on any stored ticket, with any
status payload, every permission check passes, the status is applied and
one action log is appended. -/
theorem C9_unknown_role_passes (u : User) (t : Ticket) (s : String)
    (cv : Option String)
    (hrole : ¬ (u.role = "L1" ∨ u.role = "L2" ∨ u.role = "L3"))
    (hinv : levelInv t) :
    ∃ t', updateTicketStatus (some u) (some t) (some s) cv = .ok t' ∧
      t'.status = s ∧ ∃ e, t'.actionLogs = t.actionLogs ++ [e] := by
  have hnv := (levelInv_iff t).mp hinv
  have hr1 : ¬ u.role = "L1" := fun h => hrole (Or.inl h)
  have hr2 : ¬ u.role = "L2" := fun h => hrole (Or.inr (Or.inl h))
  have hr3 : ¬ u.role = "L3" := fun h => hrole (Or.inr (Or.inr h))
  simp only [updateTicketStatus]
  rw [if_neg (fun hc => hr1 hc.1), if_neg (fun hc => hr2 hc.1),
    if_neg (fun hc => hr3 hc.1)]
  rcases cv with - | c
  · exact ⟨_, saveTicket_eq_ok hnv, rfl, _, rfl⟩
  · dsimp only
    rw [if_neg hr2]
    exact ⟨_, saveTicket_eq_ok hnv, rfl, _, rfl⟩

/-- Witness for C9: the Admin-role actor updates the L1 ticket. -/
theorem C9_unknown_role_passes_witness :
    ∃ t', updateTicketStatus (some uAdmin) (some tNewL1) (some "Attending")
        none = .ok t' ∧
      t'.status = "Attending" ∧
      ∃ e, t'.actionLogs = tNewL1.actionLogs ++ [e] :=
  C9_unknown_role_passes uAdmin tNewL1 "Attending" none (by decide)
    (by decide)

/-- C10: when a non-L2 actor's UpdateStatus payload carries a
`criticalValue` and the role gates pass, the appended action log's
`details` still reads "Critical value set to ..." although the stored
criticality was not changed — the audit entry reports a change that did
not occur. -/
theorem C10_misleading_audit_detail (u : User) (t : Ticket)
    (s : Option String) (cv : String)
    (hrole : ¬ u.role = "L2") (hinv : levelInv t)
    (h1 : ¬ (u.role = "L1" ∧ ¬ t.currentLevel = "L1"))
    (h3 : ¬ (u.role = "L3" ∧ t.currentLevel = "L3" ∧
      ¬ critIsC1orC2 t.criticalValue)) :
    ∃ t' e, updateTicketStatus (some u) (some t) s (some cv) = .ok t' ∧
      t'.actionLogs = t.actionLogs ++ [e] ∧
      e.details = some ("Critical value set to " ++ cv) ∧
      t'.criticalValue = t.criticalValue := by
  have hnv := (levelInv_iff t).mp hinv
  simp only [updateTicketStatus]
  rw [if_neg h1, if_neg (fun hc => hrole hc.1), if_neg h3, if_neg hrole]
  exact ⟨_, _, saveTicket_eq_ok hnv, rfl, rfl, rfl⟩

/-- Witness for C10: the L3 agent's payload carries `criticalValue: C2`
for the L1 ticket; the log claims the change, the field keeps its value. -/
theorem C10_misleading_audit_detail_witness :
    ∃ t' e, updateTicketStatus (some uL3) (some tNewL1) (some "Attending")
        (some "C2") = .ok t' ∧
      t'.actionLogs = tNewL1.actionLogs ++ [e] ∧
      e.details = some ("Critical value set to " ++ "C2") ∧
      t'.criticalValue = tNewL1.criticalValue :=
  C10_misleading_audit_detail uL3 tNewL1 (some "Attending") "C2" (by decide)
    (by decide) (by decide) (by decide)

end Helpdesk
